import Mathlib

/-!
# Verification of the crypto screener backend

A shallow embedding, in Lean 4, of the core components of the
`backend-screener-crypto` repository: the indicator library
(`internal/infrastructure/indicators`), the confluence scorer
(`internal/usecase/scoring.go`), the screening orchestrator's per-symbol
aggregation and status assignment (`internal/usecase/screener.go`), the
auto-scalp engine (`AutoScalpingService` in `internal/usecase`), the
notification gate (`sendNotificationsForTriggers`) and the in-memory
snapshot repository (`InMemoryScreenerRepository`).

Modelling conventions:
* Go `float64` values are embedded as exact rationals (`ℚ`); the claims
  verified here concern comparisons and piecewise-linear arithmetic that
  are insensitive to rounding.  `math.Sqrt` (used only by the Bollinger
  band computation) is embedded as `Real.sqrt`.
* Go slices become `List`s, Go maps keyed by symbol become association
  lists queried with `List.lookup`.
* `time.Time` values become rational timestamps in seconds; `time.Since`
  becomes subtraction against an explicit `now` parameter.
* Stateful methods of `AutoScalpingService` and `ScreenerUsecase` become
  pure state-transition functions: the repository contents, price cache
  and cooldown table are passed in and returned explicitly.
-/

namespace Screener

/-- `domain.MarketFeatures` (the current variant, with the momentum-loss
fields).  The Go struct names the wick field `RejectionWickRatio`; the
auto-scalp entry filter reads it as `features.RejectionWick`, and that
shorter spelling is used here.  The display-only fields `CandleRangeRatio`
(always 0, a placeholder), `IsRsiBearishDiv` (a copy of
`HasRsiDivergence`), `VolumeDeclineRatio` and `IsRetestFail` are omitted:
no function embedded here reads them. -/
structure MarketFeatures where
  PctChange24h : ℚ
  OverExtEma : ℚ
  OverExtVwap : ℚ
  IsAboveUpperBand : Bool
  RSI : ℚ
  RejectionWick : ℚ
  FundingRate : ℚ
  OpenInterestDelta : ℚ
  NearestSupport : Option ℚ
  DistToSupportATR : Option ℚ
  IsBreakdown : Bool
  IsRetest : Bool
  HasRsiDivergence : Bool
  HasVolumeDivergence : Bool
  MomentumSlope : ℚ
  RsiSlope : ℚ
  IsLosingMomentum : Bool
  deriving DecidableEq

/-- `domain.CoinData` restricted to the fields some embedded function
reads (the per-timeframe display lists and the auxiliary intraday /
pullback views are never read by the cited code paths). -/
structure CoinData where
  Symbol : String
  Price : ℚ
  Score : ℚ
  Status : String
  TriggerTF : String
  ConfluenceCount : ℕ
  PriceChangePercent : ℚ
  FundingRate : ℚ
  Features : Option MarketFeatures
  deriving DecidableEq

/-- `domain.AutoScalpSettings`. -/
structure AutoScalpSettings where
  Enabled : Bool
  MaxConcurrentTrades : ℕ
  MinEntryScore : ℚ
  StopLossPercent : ℚ
  MinProfitPercent : ℚ
  TrailingStopPercent : ℚ
  MaxPositionTime : ℤ
  deriving DecidableEq

/-- `domain.AutoScalpEntry`.  The Go `ID` (a formatted `UnixNano`
timestamp) is carried as an uninterpreted string. -/
structure AutoScalpEntry where
  ID : String
  Symbol : String
  EntryPrice : ℚ
  StopLoss : ℚ
  EntryTime : ℚ
  ExitPrice : Option ℚ
  ExitTime : Option ℚ
  ExitReason : String
  ProfitLoss : Option ℚ
  ProfitLossPct : Option ℚ
  DurationSeconds : ℤ
  Status : String
  EntryScore : ℚ
  HighestPrice : ℚ
  TrailingStopPct : ℚ
  deriving DecidableEq

/-- The defaults installed by `NewAutoScalpingService`. -/
def defaultAutoScalpSettings : AutoScalpSettings :=
  { Enabled := false
    MaxConcurrentTrades := 3
    MinEntryScore := 75
    StopLossPercent := 0.4
    MinProfitPercent := 0.3
    TrailingStopPercent := 0.15
    MaxPositionTime := 1800 }

/-- `AutoScalpingService.shouldExit`.  `now - entry.EntryTime` stands for
`time.Since(entry.EntryTime).Seconds()`; Go truncates that nonnegative
float to `int` before comparing with the integer `MaxPositionTime`, and
for an integer bound `⌊d⌋ ≥ m ↔ d ≥ m`, so the comparison is embedded
directly on the rational duration. -/
def shouldExit (s : AutoScalpSettings) (now : ℚ) (entry : AutoScalpEntry)
    (currentPrice : ℚ) : Bool × String :=
  if entry.StopLoss ≤ currentPrice then (true, "SL_HIT")
  else if (s.MaxPositionTime : ℚ) ≤ now - entry.EntryTime then (true, "MAX_TIME")
  else
    let profitPct := ((entry.EntryPrice - currentPrice) / entry.EntryPrice) * 100
    let peakProfitPct := ((entry.EntryPrice - entry.HighestPrice) / entry.EntryPrice) * 100
    if s.MinProfitPercent ≤ profitPct ∧
        s.TrailingStopPercent ≤ peakProfitPct - profitPct then (true, "TRAILING_STOP")
    else if profitPct < -s.StopLossPercent then (true, "EMERGENCY_EXIT")
    else (false, "")

/-- `AutoScalpingService.closePosition` (the P&L uses the short-bias
formula and an assumed 100 USDT position size). -/
def closePosition (entry : AutoScalpEntry) (exitPrice : ℚ) (reason : String)
    (now : ℚ) : AutoScalpEntry :=
  { entry with
    ExitPrice := some exitPrice
    ExitTime := some now
    ExitReason := reason
    ProfitLoss := some ((entry.EntryPrice - exitPrice) * 100)
    ProfitLossPct := some (((entry.EntryPrice - exitPrice) / entry.EntryPrice) * 100)
    DurationSeconds := ⌊now - entry.EntryTime⌋
    Status := "CLOSED" }

/-- The highest-favorable-price update at the top of the `checkExits`
loop body: for a short, a lower price is the better excursion. -/
def updateHighestPrice (entry : AutoScalpEntry) (currentPrice : ℚ) : AutoScalpEntry :=
  if currentPrice < entry.HighestPrice then { entry with HighestPrice := currentPrice }
  else entry

/-- One `checkExits` loop iteration for one active entry that has a
cached price: update the best favorable excursion, then either close the
position or keep the updated entry. -/
def monitorTick (s : AutoScalpSettings) (now : ℚ) (entry : AutoScalpEntry)
    (currentPrice : ℚ) : AutoScalpEntry :=
  let e := updateHighestPrice entry currentPrice
  let r := shouldExit s now e currentPrice
  if r.1 then closePosition e currentPrice r.2 now else e

/-- The body of the `checkExits` loop for one stored entry: only ACTIVE
entries whose symbol is in the price cache are touched. -/
def exitSweepOne (s : AutoScalpSettings) (now : ℚ) (prices : List (String × ℚ))
    (e : AutoScalpEntry) : AutoScalpEntry :=
  if e.Status = "ACTIVE" then
    match prices.lookup e.Symbol with
    | some p => monitorTick s now e p
    | none => e
  else e

/-- `AutoScalpingService.checkExits` over the whole store. -/
def checkExits (s : AutoScalpSettings) (now : ℚ) (prices : List (String × ℚ))
    (repo : List AutoScalpEntry) : List AutoScalpEntry :=
  repo.map (exitSweepOne s now prices)

/-- `AutoScalpRepository.GetActiveEntries` for the in-memory model. -/
def getActiveEntries (repo : List AutoScalpEntry) : List AutoScalpEntry :=
  repo.filter fun e => e.Status = "ACTIVE"

/-- `AutoScalpingService.hasActivePosition`. -/
def hasActivePosition (repo : List AutoScalpEntry) (symbol : String) : Bool :=
  (getActiveEntries repo).any fun e => e.Symbol = symbol

/-- The reversal-confirmation count in `AutoScalpingService.shouldEnter`. -/
def reversalSigns (f : MarketFeatures) : ℕ :=
  (if 0.5 < f.RejectionWick then 1 else 0) +
  (if f.IsAboveUpperBand then 1 else 0) +
  (if 0.03 ≤ f.OverExtEma then 1 else 0) +
  (if f.IsBreakdown then 1 else 0) +
  (if 0.0003 < f.FundingRate then 1 else 0) +
  (if 15 ≤ f.PctChange24h then 1 else 0)

/-- `AutoScalpingService.shouldEnter`. -/
def shouldEnter (coin : CoinData) : Bool :=
  match coin.Features with
  | none => false
  | some f => if f.RSI < 75 then false else decide (2 ≤ reversalSigns f)

/-- `AutoScalpingService.openPosition`. -/
def openPosition (s : AutoScalpSettings) (now : ℚ) (coin : CoinData) : AutoScalpEntry :=
  { ID := ""
    Symbol := coin.Symbol
    EntryPrice := coin.Price
    StopLoss := coin.Price * (1 + s.StopLossPercent / 100)
    EntryTime := now
    ExitPrice := none
    ExitTime := none
    ExitReason := ""
    ProfitLoss := none
    ProfitLossPct := none
    DurationSeconds := 0
    Status := "ACTIVE"
    EntryScore := coin.Score
    HighestPrice := coin.Price
    TrailingStopPct := s.TrailingStopPercent }

/-- The `checkEntries` loop: `activeCount` mirrors the local Go counter,
which starts at the number of ACTIVE entries and is bumped after each
open; `hasActivePosition` re-queries the store, so a position opened
earlier in the same sweep blocks a duplicate symbol. -/
def checkEntriesLoop (s : AutoScalpSettings) (now : ℚ) :
    List CoinData → List AutoScalpEntry → ℕ → List AutoScalpEntry
  | [], repo, _ => repo
  | coin :: rest, repo, activeCount =>
    if s.MaxConcurrentTrades ≤ activeCount then repo
    else if hasActivePosition repo coin.Symbol then
      checkEntriesLoop s now rest repo activeCount
    else if shouldEnter coin then
      checkEntriesLoop s now rest (repo ++ [openPosition s now coin]) (activeCount + 1)
    else checkEntriesLoop s now rest repo activeCount

/-- `AutoScalpingService.checkEntries`. -/
def checkEntries (s : AutoScalpSettings) (now : ℚ) (repo : List AutoScalpEntry)
    (coins : List CoinData) : List AutoScalpEntry :=
  checkEntriesLoop s now coins repo (getActiveEntries repo).length

/-- `AutoScalpingService.MonitorAndExecute`: when enabled, refresh the
price cache (passed here as the explicit `prices` snapshot), sweep exits,
then sweep entries. -/
def MonitorAndExecute (s : AutoScalpSettings) (now : ℚ) (prices : List (String × ℚ))
    (repo : List AutoScalpEntry) (coins : List CoinData) : List AutoScalpEntry :=
  if s.Enabled then checkEntries s now (checkExits s now prices repo) coins
  else repo

/-! ## Facts about the entry sweep (shared by claims C5 and C6) -/

theorem getActiveEntries_append (l l' : List AutoScalpEntry) :
    getActiveEntries (l ++ l') = getActiveEntries l ++ getActiveEntries l' := by
  unfold getActiveEntries
  simp [List.filter_append]

theorem hasActivePosition_false_iff (repo : List AutoScalpEntry) (sym : String) :
    hasActivePosition repo sym = false ↔
      ∀ a ∈ repo, a.Status = "ACTIVE" → a.Symbol ≠ sym := by
  unfold hasActivePosition getActiveEntries
  rw [Bool.eq_false_iff]
  simp [List.any_eq_true, List.mem_filter]

theorem hasActivePosition_append_false (l l' : List AutoScalpEntry) (sym : String)
    (h : hasActivePosition (l ++ l') sym = false) : hasActivePosition l sym = false := by
  unfold hasActivePosition at *
  rw [getActiveEntries_append, List.any_append] at h
  exact (Bool.or_eq_false_iff.mp h).1

/-- Any entry coming out of the `checkEntries` loop that was not in the
store on the way in was opened in an iteration where the running active
count was below the maximum, no stored active position carried its
symbol, and its coin passed `shouldEnter`. -/
theorem checkEntriesLoop_new_entry (s : AutoScalpSettings) (now : ℚ) :
    ∀ (coins : List CoinData) (repo : List AutoScalpEntry) (count : ℕ) (e : AutoScalpEntry),
      e ∈ checkEntriesLoop s now coins repo count → e ∉ repo →
      count < s.MaxConcurrentTrades ∧ hasActivePosition repo e.Symbol = false ∧
        ∃ c ∈ coins, shouldEnter c = true ∧ e = openPosition s now c := by
  intro coins
  induction coins with
  | nil =>
    intro repo count e he hne
    exact absurd he hne
  | cons c rest ih =>
    intro repo count e he hne
    rw [checkEntriesLoop] at he
    split_ifs at he with hmax hact hent
    · exact absurd he hne
    · obtain ⟨h1, h2, c', hc', hs', he'⟩ := ih repo count e he hne
      exact ⟨h1, h2, c', List.mem_cons_of_mem _ hc', hs', he'⟩
    · by_cases hmem : e ∈ repo ++ [openPosition s now c]
      · have he' : e = openPosition s now c := by
          rcases List.mem_append.mp hmem with h | h
          · exact absurd h hne
          · simpa using h
        refine ⟨Nat.not_le.mp hmax, ?_, c, List.mem_cons_self _ _, hent, he'⟩
        have hsym : e.Symbol = c.Symbol := by rw [he']; rfl
        rw [hsym]
        exact Bool.eq_false_iff.mpr hact
      · obtain ⟨h1, h2, c', hc', hs', he'⟩ :=
          ih (repo ++ [openPosition s now c]) (count + 1) e he hmem
        exact ⟨by omega, hasActivePosition_append_false _ _ _ h2,
          c', List.mem_cons_of_mem _ hc', hs', he'⟩
    · obtain ⟨h1, h2, c', hc', hs', he'⟩ := ih repo count e he hne
      exact ⟨h1, h2, c', List.mem_cons_of_mem _ hc', hs', he'⟩

/-! ## Claim C5: the entry gate -/

/-- C5: a new position appears in the store only when the engine is
enabled (with the engine disabled the whole monitor step is the
identity), the ACTIVE count is below `MaxConcurrentTrades`, no ACTIVE
position for the symbol exists, and the opening coin passed
`shouldEnter`: its headline features exist, the primary RSI is ≥75
(overbought), and at least 2 reversal-confirmation signs hold. -/
theorem c5_entry_conditions (s : AutoScalpSettings) (now : ℚ) (prices : List (String × ℚ))
    (repo : List AutoScalpEntry) (coins : List CoinData) :
    (s.Enabled = false → MonitorAndExecute s now prices repo coins = repo) ∧
    ∀ e, e ∈ checkEntries s now repo coins → e ∉ repo →
      (getActiveEntries repo).length < s.MaxConcurrentTrades ∧
      hasActivePosition repo e.Symbol = false ∧
      ∃ c ∈ coins, e = openPosition s now c ∧
        ∃ f, c.Features = some f ∧ 75 ≤ f.RSI ∧ 2 ≤ reversalSigns f := by
  constructor
  · intro hoff
    unfold MonitorAndExecute
    rw [hoff]
    simp
  · intro e he hne
    obtain ⟨h1, h2, c, hc, hs', he'⟩ :=
      checkEntriesLoop_new_entry s now coins repo _ e he hne
    refine ⟨h1, h2, c, hc, he', ?_⟩
    unfold shouldEnter at hs'
    cases hf : c.Features with
    | none => rw [hf] at hs'; exact absurd hs' (by simp)
    | some f =>
      rw [hf] at hs'
      dsimp only at hs'
      split_ifs at hs' with hr
      exact ⟨f, rfl, not_lt.mp hr, of_decide_eq_true hs'⟩

/-- A coin passing `shouldEnter`: RSI 80 and two reversal signs
(above-band and elevated funding). -/
def c5Features : MarketFeatures :=
  { PctChange24h := 0
    OverExtEma := 0
    OverExtVwap := 0
    IsAboveUpperBand := true
    RSI := 80
    RejectionWick := 0
    FundingRate := 0.0005
    OpenInterestDelta := 0
    NearestSupport := none
    DistToSupportATR := none
    IsBreakdown := false
    IsRetest := false
    HasRsiDivergence := false
    HasVolumeDivergence := false
    MomentumSlope := 0
    RsiSlope := 0
    IsLosingMomentum := false }

/-- A published coin that satisfies the auto-scalp entry gate. -/
def c5Coin : CoinData :=
  { Symbol := "CUSDT"
    Price := 5
    Score := 80
    Status := "TRIGGER"
    TriggerTF := "1m"
    ConfluenceCount := 2
    PriceChangePercent := 0
    FundingRate := 0.0005
    Features := some c5Features }

/-- C5 witness: with an empty store, the concrete coin `c5Coin` opens a
position, and the theorem's conclusions hold for it; the disabled-engine
conjunct is exercised at the default (disabled) settings. -/
theorem c5_entry_conditions_witness :
    MonitorAndExecute defaultAutoScalpSettings 0 [] [] [c5Coin] = [] ∧
    openPosition defaultAutoScalpSettings 0 c5Coin ∈
      checkEntries defaultAutoScalpSettings 0 [] [c5Coin] ∧
    ((getActiveEntries ([] : List AutoScalpEntry)).length <
        defaultAutoScalpSettings.MaxConcurrentTrades ∧
      hasActivePosition [] (openPosition defaultAutoScalpSettings 0 c5Coin).Symbol = false ∧
      ∃ c ∈ [c5Coin], openPosition defaultAutoScalpSettings 0 c5Coin = openPosition defaultAutoScalpSettings 0 c ∧
        ∃ f, c.Features = some f ∧ 75 ≤ f.RSI ∧ 2 ≤ reversalSigns f) := by
  have hmem : checkEntries defaultAutoScalpSettings 0 [] [c5Coin] =
      [openPosition defaultAutoScalpSettings 0 c5Coin] := by
    norm_num [checkEntries, checkEntriesLoop, getActiveEntries, hasActivePosition,
      shouldEnter, reversalSigns, c5Coin, c5Features, defaultAutoScalpSettings]
  refine ⟨(c5_entry_conditions defaultAutoScalpSettings 0 [] [] [c5Coin]).1 rfl, ?_, ?_⟩
  · rw [hmem]
    exact List.mem_singleton_self _
  · exact (c5_entry_conditions defaultAutoScalpSettings 0 [] [] [c5Coin]).2 _
      (by rw [hmem]; exact List.mem_singleton_self _) (by simp)

/-! ## Claim C6: at most one ACTIVE position per symbol -/

/-- No symbol carries two ACTIVE positions. -/
def AtMostOneActivePerSymbol (repo : List AutoScalpEntry) : Prop :=
  repo.Pairwise fun a b => a.Status = "ACTIVE" → b.Status = "ACTIVE" → a.Symbol ≠ b.Symbol

theorem monitorTick_Symbol (s : AutoScalpSettings) (now : ℚ) (e : AutoScalpEntry) (p : ℚ) :
    (monitorTick s now e p).Symbol = e.Symbol := by
  unfold monitorTick updateHighestPrice closePosition
  dsimp only
  split_ifs <;> rfl

theorem monitorTick_active (s : AutoScalpSettings) (now : ℚ) (e : AutoScalpEntry) (p : ℚ)
    (h : (monitorTick s now e p).Status = "ACTIVE") : e.Status = "ACTIVE" := by
  unfold monitorTick updateHighestPrice closePosition at h
  dsimp only at h
  split_ifs at h <;> simp_all

theorem exitSweepOne_Symbol (s : AutoScalpSettings) (now : ℚ) (prices : List (String × ℚ))
    (e : AutoScalpEntry) : (exitSweepOne s now prices e).Symbol = e.Symbol := by
  unfold exitSweepOne
  split_ifs with h
  · cases hp : prices.lookup e.Symbol with
    | none => simp [hp]
    | some p => simp [hp, monitorTick_Symbol]
  · rfl

theorem exitSweepOne_active (s : AutoScalpSettings) (now : ℚ) (prices : List (String × ℚ))
    (e : AutoScalpEntry) (h : (exitSweepOne s now prices e).Status = "ACTIVE") :
    e.Status = "ACTIVE" := by
  unfold exitSweepOne at h
  split_ifs at h with hs
  · exact hs
  · exact h

theorem checkExits_atMostOne (s : AutoScalpSettings) (now : ℚ) (prices : List (String × ℚ))
    (repo : List AutoScalpEntry) (h : AtMostOneActivePerSymbol repo) :
    AtMostOneActivePerSymbol (checkExits s now prices repo) := by
  unfold checkExits
  unfold AtMostOneActivePerSymbol at h ⊢
  rw [List.pairwise_map]
  refine h.imp ?_
  intro a b hab hA hB
  rw [exitSweepOne_Symbol, exitSweepOne_Symbol]
  exact hab (exitSweepOne_active _ _ _ _ hA) (exitSweepOne_active _ _ _ _ hB)

theorem checkEntriesLoop_atMostOne (s : AutoScalpSettings) (now : ℚ) :
    ∀ (coins : List CoinData) (repo : List AutoScalpEntry) (count : ℕ),
      AtMostOneActivePerSymbol repo →
      AtMostOneActivePerSymbol (checkEntriesLoop s now coins repo count) := by
  intro coins
  induction coins with
  | nil =>
    intro repo count h
    rw [checkEntriesLoop]
    exact h
  | cons c rest ih =>
    intro repo count h
    rw [checkEntriesLoop]
    split_ifs with hmax hact hent
    · exact h
    · exact ih repo count h
    · refine ih _ _ ?_
      unfold AtMostOneActivePerSymbol at h ⊢
      rw [List.pairwise_append]
      refine ⟨h, List.pairwise_singleton _ _, ?_⟩
      intro a ha b hb hA hB
      have hb' : b = openPosition s now c := List.mem_singleton.mp hb
      have hsym : a.Symbol ≠ c.Symbol :=
        (hasActivePosition_false_iff repo c.Symbol).mp (Bool.eq_false_iff.mpr hact) a ha hA
      rw [hb']
      exact hsym
    · exact ih repo count h

/-- C6: every auto-scalp monitor step (price-cache refresh, exit sweep
with highest-price updates and closes, then entry sweep) preserves the
invariant that at most one ACTIVE position exists per symbol. -/
theorem c6_at_most_one_active (s : AutoScalpSettings) (now : ℚ) (prices : List (String × ℚ))
    (repo : List AutoScalpEntry) (coins : List CoinData)
    (h : AtMostOneActivePerSymbol repo) :
    AtMostOneActivePerSymbol (MonitorAndExecute s now prices repo coins) := by
  unfold MonitorAndExecute checkEntries
  split_ifs with hen
  · exact checkEntriesLoop_atMostOne s now coins _ _ (checkExits_atMostOne s now prices repo h)
  · exact h

/-- C6 witness: the invariant holds of the empty store and is preserved
by a full enabled monitor step that actually opens a position. -/
theorem c6_at_most_one_active_witness :
    AtMostOneActivePerSymbol ([] : List AutoScalpEntry) ∧
    AtMostOneActivePerSymbol
      (MonitorAndExecute { defaultAutoScalpSettings with Enabled := true } 0 [] [] [c5Coin]) :=
  ⟨List.Pairwise.nil,
   c6_at_most_one_active { defaultAutoScalpSettings with Enabled := true } 0 [] [] [c5Coin]
     List.Pairwise.nil⟩

/-! ## The confluence scorer (`scoring.go` / `screener.go`) -/

/-- The Go capping idiom `if s > cap { s = cap }`. -/
def capAt (cap x : ℚ) : ℚ := if cap < x then cap else x

theorem capAt_le (cap x : ℚ) : capAt cap x ≤ cap := by
  unfold capAt
  split_ifs with h
  · exact le_refl cap
  · exact le_of_not_lt h

/-- The overextension sub-score of `CalculateScore` (pump magnitude +
EMA overextension + VWAP overextension, capped at 30). -/
def sOverScore (f : MarketFeatures) : ℚ :=
  let pump : ℚ :=
    if 50 ≤ f.PctChange24h then 20
    else if 40 ≤ f.PctChange24h then 15
    else if 25 ≤ f.PctChange24h then 10
    else if 15 ≤ f.PctChange24h then 5
    else 0
  let emaExt : ℚ :=
    if 0.08 ≤ f.OverExtEma then 15
    else if 0.05 ≤ f.OverExtEma then 10
    else if 0.03 ≤ f.OverExtEma then 5
    else 0
  let vwapExt : ℚ :=
    if 0.05 ≤ f.OverExtVwap then 5
    else if 0.03 ≤ f.OverExtVwap then 3
    else 0
  capAt 30 (pump + emaExt + vwapExt)

/-- The crowding sub-score of `CalculateScore` (funding rate +
open-interest delta, capped at 20). -/
def sCrowdScore (f : MarketFeatures) : ℚ :=
  let funding : ℚ :=
    if 0.001 < f.FundingRate then 10
    else if 0.0005 < f.FundingRate then 7
    else if 0.0001 < f.FundingRate then 3
    else 0
  let oi : ℚ :=
    if 10 < f.OpenInterestDelta then 7
    else if 5 < f.OpenInterestDelta then 3
    else 0
  capAt 20 (funding + oi)

/-- The exhaustion sub-score of `CalculateScore` (RSI tier + upper-band
breach + rejection wick, capped at 30).  The Go source reads the wick
field as `features.RejectionWickRatio` here. -/
def sExhaustScore (f : MarketFeatures) : ℚ :=
  let rsiTier : ℚ :=
    if 80 < f.RSI then 20
    else if 75 < f.RSI then 15
    else if 70 < f.RSI then 10
    else if 65 < f.RSI then 5
    else 0
  let band : ℚ := if f.IsAboveUpperBand then 5 else 0
  let wick : ℚ := if 0.5 < f.RejectionWick then 5 else 0
  capAt 30 (rsiTier + band + wick)

/-- The structure sub-score of `CalculateScore` (breakdown + retest,
capped at 20). -/
def sStructScore (f : MarketFeatures) : ℚ :=
  capAt 20 ((if f.IsBreakdown then 12 else 0) + (if f.IsRetest then 8 else 0))

/-- The momentum-loss sub-score of `CalculateScore` (combined signal +
divergences + RSI slope, capped at 15). -/
def sMomentumScore (f : MarketFeatures) : ℚ :=
  let slope : ℚ :=
    if f.RsiSlope < -3 then 4
    else if f.RsiSlope < -1 then 2
    else 0
  capAt 15 ((if f.IsLosingMomentum then 8 else 0) +
    (if f.HasRsiDivergence then 5 else 0) +
    (if f.HasVolumeDivergence then 3 else 0) + slope)

/-- `usecase.CalculateScore`: the per-timeframe score, a sum of the five
independently capped sub-scores. -/
def CalculateScore (f : MarketFeatures) : ℚ :=
  sOverScore f + sCrowdScore f + sExhaustScore f + sStructScore f + sMomentumScore f

/-- The per-timeframe alignment test in `ScreenerUsecase.process`
(`isOverbought || hasLosingMomentum`), identical for the core and the
intraday group. -/
def isAlignedTF (f : MarketFeatures) : Bool :=
  decide (60 < f.RSI) || decide ((0.02:ℚ) < f.OverExtEma) || f.IsAboveUpperBand ||
    f.IsLosingMomentum || f.HasRsiDivergence || f.HasVolumeDivergence

/-- The aligned-timeframe count over a two-timeframe group. -/
def alignedCount (fa fb : MarketFeatures) : ℕ :=
  (if isAlignedTF fa then 1 else 0) + (if isAlignedTF fb then 1 else 0)

/-- The core (1m + 5m) confluence multiplier switch. -/
def confluenceMultiplier (count : ℕ) : ℚ :=
  match count with
  | 2 => 1.3
  | 1 => 1.1
  | _ => 1.0

/-- The intraday (15m + 1h) confluence multiplier switch — for exactly
one aligned timeframe it is 1.15, not the core group's 1.1. -/
def intradayMultiplier (count : ℕ) : ℚ :=
  match count with
  | 2 => 1.3
  | 1 => 1.15
  | _ => 1.0

/-- The published combined core score of a symbol whose two core
timeframes both analyzed: mean per-timeframe score × confluence
multiplier, capped at 100. -/
def coreFinalScore (f1m f5m : MarketFeatures) : ℚ :=
  capAt 100 (((CalculateScore f1m + CalculateScore f5m) / 2) *
    confluenceMultiplier (alignedCount f1m f5m))

/-- The published intraday score (`coin.IntradayScore`) of a symbol whose
two intraday timeframes both analyzed. -/
def intradayScore (f15m f1h : MarketFeatures) : ℚ :=
  capAt 100 (((CalculateScore f15m + CalculateScore f1h) / 2) *
    intradayMultiplier (alignedCount f15m f1h))

/-- The status assignment at the end of `ScreenerUsecase.process`. -/
def statusOf (confluenceCount : ℕ) (finalScore : ℚ) : String :=
  if 2 ≤ confluenceCount ∧ 40 ≤ finalScore then "TRIGGER"
  else if 1 ≤ confluenceCount ∧ 35 ≤ finalScore then "SETUP"
  else if 30 ≤ finalScore then "WATCH"
  else ""

/-- The status a published two-core-timeframe symbol receives. -/
def coinStatus (f1m f5m : MarketFeatures) : String :=
  statusOf (alignedCount f1m f5m) (coreFinalScore f1m f5m)

/-! ## Claim C2: the status tier characterization -/

/-- C2: a published symbol's status is TRIGGER exactly when its aligned
count is ≥2 and its final score is ≥40; otherwise SETUP exactly when the
count is ≥1 and the score is ≥35; otherwise WATCH exactly when the score
is ≥30; otherwise the status is empty. -/
theorem c2_status_tiers (f1m f5m : MarketFeatures) :
    (coinStatus f1m f5m = "TRIGGER" ↔
      2 ≤ alignedCount f1m f5m ∧ 40 ≤ coreFinalScore f1m f5m) ∧
    (coinStatus f1m f5m = "SETUP" ↔
      ¬(2 ≤ alignedCount f1m f5m ∧ 40 ≤ coreFinalScore f1m f5m) ∧
      (1 ≤ alignedCount f1m f5m ∧ 35 ≤ coreFinalScore f1m f5m)) ∧
    (coinStatus f1m f5m = "WATCH" ↔
      ¬(2 ≤ alignedCount f1m f5m ∧ 40 ≤ coreFinalScore f1m f5m) ∧
      ¬(1 ≤ alignedCount f1m f5m ∧ 35 ≤ coreFinalScore f1m f5m) ∧
      30 ≤ coreFinalScore f1m f5m) ∧
    (coinStatus f1m f5m = "" ↔
      ¬(2 ≤ alignedCount f1m f5m ∧ 40 ≤ coreFinalScore f1m f5m) ∧
      ¬(1 ≤ alignedCount f1m f5m ∧ 35 ≤ coreFinalScore f1m f5m) ∧
      ¬(30 ≤ coreFinalScore f1m f5m)) := by
  unfold coinStatus statusOf
  split_ifs with h1 h2 h3 <;> simp_all

/-! ## Claim C3: the confluence multipliers per timeframe group -/

/-- C3, counterexample feature records: `c3AlignedFeatures` is aligned
(RSI 70 > 60) and scores 5; `c3QuietFeatures` is unaligned and scores 0. -/
def c3AlignedFeatures : MarketFeatures :=
  { PctChange24h := 0
    OverExtEma := 0
    OverExtVwap := 0
    IsAboveUpperBand := false
    RSI := 70
    RejectionWick := 0
    FundingRate := 0
    OpenInterestDelta := 0
    NearestSupport := none
    DistToSupportATR := none
    IsBreakdown := false
    IsRetest := false
    HasRsiDivergence := false
    HasVolumeDivergence := false
    MomentumSlope := 0
    RsiSlope := 0
    IsLosingMomentum := false }

/-- An unaligned feature record scoring 0 (all flags off, RSI 50). -/
def c3QuietFeatures : MarketFeatures := { c3AlignedFeatures with RSI := 50 }

/-- C3, counterexample: for the intraday-confirmation group with exactly
one aligned timeframe the code multiplies the mean by 1.15, not by the
claimed 1.1: mean score 2.5 is published as 2.875, where the claim's
formula gives 2.75. -/
theorem c3_counterexample :
    isAlignedTF c3AlignedFeatures = true ∧
    isAlignedTF c3QuietFeatures = false ∧
    intradayScore c3AlignedFeatures c3QuietFeatures = 2.875 ∧
    capAt 100 (((CalculateScore c3AlignedFeatures + CalculateScore c3QuietFeatures) / 2) * 1.1)
      = 2.75 ∧
    intradayScore c3AlignedFeatures c3QuietFeatures ≠
      capAt 100 (((CalculateScore c3AlignedFeatures + CalculateScore c3QuietFeatures) / 2) * 1.1) := by
  norm_num [c3AlignedFeatures, c3QuietFeatures, intradayScore, intradayMultiplier,
    alignedCount, isAlignedTF, CalculateScore, sOverScore, sCrowdScore, sExhaustScore,
    sStructScore, sMomentumScore, capAt]

/-- C3, amended: for the core group the combined score is the mean of the
two per-timeframe scores times 1.3 (both aligned) / 1.1 (exactly one) /
1.0 (none), capped at 100; for the intraday-confirmation group the
exactly-one multiplier is 1.15 instead of 1.1. -/
theorem c3_amended (fa fb : MarketFeatures) :
    coreFinalScore fa fb =
      capAt 100 (((CalculateScore fa + CalculateScore fb) / 2) *
        (if isAlignedTF fa && isAlignedTF fb then 1.3
         else if isAlignedTF fa || isAlignedTF fb then 1.1 else 1.0)) ∧
    intradayScore fa fb =
      capAt 100 (((CalculateScore fa + CalculateScore fb) / 2) *
        (if isAlignedTF fa && isAlignedTF fb then 1.3
         else if isAlignedTF fa || isAlignedTF fb then 1.15 else 1.0)) := by
  cases ha : isAlignedTF fa <;> cases hb : isAlignedTF fb <;>
    simp [coreFinalScore, intradayScore, alignedCount, confluenceMultiplier,
      intradayMultiplier, ha, hb]

/-! ## Claim C4: the sub-score caps and the overall 100 cap -/

/-- C4: every sub-score of `CalculateScore` is bounded by its cap
(overextension ≤30, crowding ≤20, exhaustion ≤30, structure ≤20,
momentum-loss ≤15), and the published combined score after the
confluence multiplier is ≤100. -/
theorem c4_subscore_caps :
    (∀ f : MarketFeatures,
      sOverScore f ≤ 30 ∧ sCrowdScore f ≤ 20 ∧ sExhaustScore f ≤ 30 ∧
        sStructScore f ≤ 20 ∧ sMomentumScore f ≤ 15) ∧
    ∀ fa fb : MarketFeatures, coreFinalScore fa fb ≤ 100 := by
  constructor
  · intro f
    refine ⟨?_, ?_, ?_, ?_, ?_⟩ <;> apply capAt_le
  · intro fa fb
    apply capAt_le

/-! ## Claim C1: the trailing-stop scenario at prices 99.5 then 99.75 -/

/-- The coin of the C1 scenario: a position is opened at entry price 100. -/
def c1Coin : CoinData :=
  { Symbol := "TESTUSDT"
    Price := 100
    Score := 80
    Status := "TRIGGER"
    TriggerTF := "1m"
    ConfluenceCount := 2
    PriceChangePercent := 0
    FundingRate := 0
    Features := none }

/-- The position opened at time 0 and entry price 100 under the default
settings. -/
def c1Opened : AutoScalpEntry := openPosition defaultAutoScalpSettings 0 c1Coin

/-- The position after the exit monitor observes price 99.5 at time 60. -/
def c1AfterFirstTick : AutoScalpEntry :=
  monitorTick defaultAutoScalpSettings 60 c1Opened 99.5

/-- C1, counterexample: on the 99.75 tick the exit check returns no exit
at all — in particular not a TRAILING_STOP exit — because the trailing
logic is only consulted while the *current* profit is at least
`MinProfitPercent` (0.3%), and at price 99.75 the current profit is only
0.25%. -/
theorem c1_counterexample :
    shouldExit defaultAutoScalpSettings 120 c1AfterFirstTick 99.75 = (false, "") ∧
    shouldExit defaultAutoScalpSettings 120 c1AfterFirstTick 99.75 ≠ (true, "TRAILING_STOP") := by
  have h : shouldExit defaultAutoScalpSettings 120 c1AfterFirstTick 99.75 = (false, "") := by
    norm_num [c1AfterFirstTick, c1Opened, c1Coin, defaultAutoScalpSettings, monitorTick,
      updateHighestPrice, shouldExit, openPosition]
  exact ⟨h, by rw [h]; simp⟩

/-- C1, amended: with the default settings a position opened at entry
price 100 gets stop-loss price 100.4, and after the monitor observes
price 99.5 (recording 99.5 as the best favorable price, position still
ACTIVE), the exit check on the 99.75 tick returns no exit (current profit
0.25% is below the 0.3% arming threshold); on a tick at price 99.7
(current profit exactly 0.3%, retrace from the 0.5% peak = 0.2% ≥ 0.15%)
it returns an exit with reason TRAILING_STOP. -/
theorem c1_amended :
    c1Opened.StopLoss = 100.4 ∧
    c1AfterFirstTick.HighestPrice = 99.5 ∧
    c1AfterFirstTick.Status = "ACTIVE" ∧
    shouldExit defaultAutoScalpSettings 120 c1AfterFirstTick 99.75 = (false, "") ∧
    shouldExit defaultAutoScalpSettings 120 c1AfterFirstTick 99.7 = (true, "TRAILING_STOP") := by
  refine ⟨?_, ?_, ?_, ?_, ?_⟩ <;>
    norm_num [c1AfterFirstTick, c1Opened, c1Coin, defaultAutoScalpSettings, monitorTick,
      updateHighestPrice, shouldExit, openPosition]

/-! ## Claim C10: EMERGENCY_EXIT is unreachable for honestly-priced stops -/

/-- C10: for an entry whose stop-loss price is
`EntryPrice * (1 + StopLossPercent/100)` (as `openPosition` computes it,
with the same `StopLossPercent` in force), `shouldExit` never returns the
reason EMERGENCY_EXIT: any price with unrealized loss beyond
`StopLossPercent` already satisfies the stop-loss comparison
`currentPrice ≥ StopLoss`, which is checked first. -/
theorem c10_no_emergency_exit (s : AutoScalpSettings) (now : ℚ) (e : AutoScalpEntry) (p : ℚ)
    (hsl : e.StopLoss = e.EntryPrice * (1 + s.StopLossPercent / 100))
    (hpos : 0 < e.EntryPrice) :
    (shouldExit s now e p).2 ≠ "EMERGENCY_EXIT" := by
  unfold shouldExit
  split_ifs with h1 h2
  · simp
  · simp
  · dsimp only
    split_ifs with h3 h4
    · simp
    · exfalso
      rw [hsl] at h1
      push_neg at h1
      rw [div_mul_eq_mul_div, div_lt_iff₀ hpos] at h4
      nlinarith
    · simp

/-- A concrete ACTIVE entry (entry 100, stop 100.4) for the C10 witness. -/
def c10Entry : AutoScalpEntry :=
  { ID := ""
    Symbol := "XUSDT"
    EntryPrice := 100
    StopLoss := 100.4
    EntryTime := 0
    ExitPrice := none
    ExitTime := none
    ExitReason := ""
    ProfitLoss := none
    ProfitLossPct := none
    DurationSeconds := 0
    Status := "ACTIVE"
    EntryScore := 80
    HighestPrice := 100
    TrailingStopPct := 0.15 }

/-- C10 witness: the theorem applied to a concrete entry and tick. -/
theorem c10_no_emergency_exit_witness :
    c10Entry.StopLoss = c10Entry.EntryPrice * (1 + defaultAutoScalpSettings.StopLossPercent / 100) ∧
    (0:ℚ) < c10Entry.EntryPrice ∧
    (shouldExit defaultAutoScalpSettings 120 c10Entry 101).2 ≠ "EMERGENCY_EXIT" :=
  ⟨by norm_num [c10Entry, defaultAutoScalpSettings],
   by norm_num [c10Entry],
   c10_no_emergency_exit defaultAutoScalpSettings 120 c10Entry 101
     (by norm_num [c10Entry, defaultAutoScalpSettings]) (by norm_num [c10Entry])⟩

/-! ## The notification gate (`sendNotificationsForTriggers`) -/

/-- The 5-minute notification cooldown, in seconds. -/
def notifyCooldown : ℚ := 5 * 60

/-- The loop of `ScreenerUsecase.sendNotificationsForTriggers` (the
TRIGGER-only variant that matches the current `CoinData`): for each coin
with TRIGGER status whose symbol is off cooldown, fire a notification
and stamp the cooldown table.  The external delivery conditions (FCM
configured, registered tokens present, multicast send succeeding) are
taken as given; the returned pair is the fired symbols and the updated
table. -/
def sendLoop (now : ℚ) : List CoinData → List (String × ℚ) → List String × List (String × ℚ)
  | [], notified => ([], notified)
  | coin :: rest, notified =>
    if coin.Status ≠ "TRIGGER" then sendLoop now rest notified
    else
      match notified.lookup coin.Symbol with
      | some last =>
        if now - last < notifyCooldown then sendLoop now rest notified
        else
          let r := sendLoop now rest ((coin.Symbol, now) :: notified)
          (coin.Symbol :: r.1, r.2)
      | none =>
        let r := sendLoop now rest ((coin.Symbol, now) :: notified)
        (coin.Symbol :: r.1, r.2)

/-- The cleanup at the end of each cycle: entries older than twice the
cooldown window are deleted. -/
def pruneCooldowns (now : ℚ) (notified : List (String × ℚ)) : List (String × ℚ) :=
  notified.filter fun p => ¬ notifyCooldown * 2 < now - p.2

/-- `ScreenerUsecase.sendNotificationsForTriggers`: the firing loop, then
the pruning pass. -/
def sendNotificationsForTriggers (now : ℚ) (coins : List CoinData)
    (notified : List (String × ℚ)) : List String × List (String × ℚ) :=
  let r := sendLoop now coins notified
  (r.1, pruneCooldowns now r.2)

theorem lookup_cons_self {β : Type} (k : String) (v : β) (l : List (String × β)) :
    ((k, v) :: l).lookup k = some v := by
  simp [List.lookup_cons]

theorem lookup_cons_ne {β : Type} (k k' : String) (v : β) (l : List (String × β))
    (h : k' ≠ k) : ((k, v) :: l).lookup k' = l.lookup k' := by
  simp [List.lookup_cons, beq_false_of_ne h]

theorem sendLoop_fires (now : ℚ) :
    ∀ (coins : List CoinData) (notified : List (String × ℚ)) (c : CoinData),
      c ∈ coins → c.Status = "TRIGGER" →
      (∀ last, notified.lookup c.Symbol = some last → notifyCooldown ≤ now - last) →
      c.Symbol ∈ (sendLoop now coins notified).1 := by
  intro coins
  induction coins with
  | nil =>
    intro notified c hc _ _
    exact absurd hc (List.not_mem_nil _)
  | cons c0 rest ih =>
    intro notified c hc hT hcool
    rw [sendLoop]
    rcases List.mem_cons.mp hc with hc0 | hmem
    · subst hc0
      rw [if_neg (by simp [hT])]
      cases hl : notified.lookup c.Symbol with
      | none => simp
      | some last =>
        have : ¬ now - last < notifyCooldown := not_lt.mpr (hcool last hl)
        simp [this]
    · by_cases hT0 : c0.Status = "TRIGGER"
      · rw [if_neg (by simp [hT0])]
        cases hl : notified.lookup c0.Symbol with
        | none =>
          dsimp only
          by_cases heq : c.Symbol = c0.Symbol
          · simp [heq]
          · refine List.mem_cons_of_mem _ (ih _ c hmem hT ?_)
            intro last hlast
            rw [lookup_cons_ne _ _ _ _ heq] at hlast
            exact hcool last hlast
        | some last =>
          dsimp only
          split_ifs with hlt
          · exact ih notified c hmem hT hcool
          · dsimp only
            by_cases heq : c.Symbol = c0.Symbol
            · simp [heq]
            · refine List.mem_cons_of_mem _ (ih _ c hmem hT ?_)
              intro l hl'
              rw [lookup_cons_ne _ _ _ _ heq] at hl'
              exact hcool l hl'
      · rw [if_pos (by simp [hT0])]
        exact ih notified c hmem hT hcool

theorem sendLoop_suppresses (now : ℚ) :
    ∀ (coins : List CoinData) (notified : List (String × ℚ)) (sym : String) (last : ℚ),
      notified.lookup sym = some last → now - last < notifyCooldown →
      sym ∉ (sendLoop now coins notified).1 := by
  intro coins
  induction coins with
  | nil =>
    intro notified sym last _ _
    exact List.not_mem_nil _
  | cons c0 rest ih =>
    intro notified sym last hl hlt
    rw [sendLoop]
    by_cases hT0 : c0.Status = "TRIGGER"
    · rw [if_neg (by simp [hT0])]
      cases hl0 : notified.lookup c0.Symbol with
      | none =>
        dsimp only
        have hsym : sym ≠ c0.Symbol := by
          intro heq
          rw [heq, hl0] at hl
          exact Option.noConfusion hl
        intro hmem
        rcases List.mem_cons.mp hmem with h | h
        · exact hsym h
        · exact ih ((c0.Symbol, now) :: notified) sym last
            (by rw [lookup_cons_ne _ _ _ _ hsym]; exact hl) hlt h
      | some l0 =>
        dsimp only
        split_ifs with hlt0
        · exact ih notified sym last hl hlt
        · dsimp only
          have hsym : sym ≠ c0.Symbol := by
            intro heq
            rw [heq, hl0] at hl
            injection hl with hll
            rw [hll] at hlt0
            exact hlt0 hlt
          intro hmem
          rcases List.mem_cons.mp hmem with h | h
          · exact hsym h
          · exact ih ((c0.Symbol, now) :: notified) sym last
              (by rw [lookup_cons_ne _ _ _ _ hsym]; exact hl) hlt h
    · rw [if_pos (by simp [hT0])]
      exact ih notified sym last hl hlt

theorem pruneCooldowns_bound (now : ℚ) (notified : List (String × ℚ)) :
    ∀ p ∈ pruneCooldowns now notified, now - p.2 ≤ notifyCooldown * 2 := by
  intro p hp
  unfold pruneCooldowns at hp
  rw [List.mem_filter] at hp
  exact not_lt.mp (of_decide_eq_true hp.2)

/-! ## Claim C7: TRIGGER notifications, cooldown and pruning -/

/-- C7: in one notification cycle (delivery externals assumed up), (a) a
symbol whose published status is TRIGGER is fired whenever its cooldown
entry is absent or at least `notifyCooldown` (5 minutes) old; (b) a
symbol whose cooldown entry is younger than 5 minutes is never fired, so
a second TRIGGER notification inside the window is suppressed; (c) after
the cycle's pruning pass every cooldown entry is at most 2× the window
old. -/
theorem c7_notification_gate (now : ℚ) (coins : List CoinData)
    (notified : List (String × ℚ)) :
    (∀ c ∈ coins, c.Status = "TRIGGER" →
      (∀ last, notified.lookup c.Symbol = some last → notifyCooldown ≤ now - last) →
      c.Symbol ∈ (sendNotificationsForTriggers now coins notified).1) ∧
    (∀ sym last, notified.lookup sym = some last → now - last < notifyCooldown →
      sym ∉ (sendNotificationsForTriggers now coins notified).1) ∧
    (∀ p ∈ (sendNotificationsForTriggers now coins notified).2,
      now - p.2 ≤ notifyCooldown * 2) := by
  refine ⟨?_, ?_, ?_⟩
  · intro c hc hT hcool
    exact sendLoop_fires now coins notified c hc hT hcool
  · intro sym last hl hlt
    exact sendLoop_suppresses now coins notified sym last hl hlt
  · intro p hp
    exact pruneCooldowns_bound now _ p hp

/-- Two TRIGGER coins for the C7 witness. -/
def c7CoinA : CoinData := { c5Coin with Symbol := "AAAUSDT", Status := "TRIGGER" }

/-- A second TRIGGER coin, recently notified. -/
def c7CoinB : CoinData := { c5Coin with Symbol := "BBBUSDT", Status := "TRIGGER" }

/-- A cooldown table: AAAUSDT notified at t=0, BBBUSDT at t=800. -/
def c7Table : List (String × ℚ) := [("AAAUSDT", 0), ("BBBUSDT", 800)]

/-- C7 witness: at t=1000, AAAUSDT (last notified 1000s ago) fires again,
BBBUSDT (notified 200s ago, inside the 300s cooldown) is suppressed, and
the kept BBBUSDT cooldown entry is within 2× the window. -/
theorem c7_notification_gate_witness :
    "AAAUSDT" ∈ (sendNotificationsForTriggers 1000 [c7CoinA, c7CoinB] c7Table).1 ∧
    "BBBUSDT" ∉ (sendNotificationsForTriggers 1000 [c7CoinA, c7CoinB] c7Table).1 ∧
    (1000 : ℚ) - 900 ≤ notifyCooldown * 2 := by
  obtain ⟨h1, h2, h3⟩ := c7_notification_gate 1000 [c7CoinA, c7CoinB] c7Table
  refine ⟨?_, ?_, ?_⟩
  · refine h1 c7CoinA (by simp) rfl ?_
    intro last hlast
    rw [show c7CoinA.Symbol = "AAAUSDT" from rfl] at hlast
    rw [c7Table, lookup_cons_self] at hlast
    injection hlast with h
    rw [← h]
    norm_num [notifyCooldown]
  · refine h2 "BBBUSDT" 800 ?_ (by norm_num [notifyCooldown])
    rw [c7Table, lookup_cons_ne _ _ _ _ (by decide), lookup_cons_self]
  · obtain ⟨-, -, h3'⟩ := c7_notification_gate 1000 [] [("XUSDT", 900)]
    have hmem : ("XUSDT", (900:ℚ)) ∈ (sendNotificationsForTriggers 1000 [] [("XUSDT", 900)]).2 := by
      norm_num [sendNotificationsForTriggers, sendLoop, pruneCooldowns, notifyCooldown,
        List.filter]
    exact h3' ("XUSDT", 900) hmem

/-! ## Claim C8: the published snapshot is sorted and atomically replaced -/

/-- `repository.InMemoryScreenerRepository` (its lock guards the list;
the embedding is the list itself). -/
structure InMemoryScreenerRepository where
  coins : List CoinData

/-- `InMemoryScreenerRepository.SaveCoins`: replace the entire list. -/
def SaveCoins (r : InMemoryScreenerRepository) (coins : List CoinData) :
    InMemoryScreenerRepository :=
  { r with coins := coins }

/-- `InMemoryScreenerRepository.GetCoins` (the Go method returns a
shallow copy of the stored slice, observationally the stored list). -/
def GetCoins (r : InMemoryScreenerRepository) : List CoinData := r.coins

/-- The ranking sort at the end of `ScreenerUsecase.process`:
`sort.Slice` with the comparator `coins[i].Score > coins[j].Score`,
i.e. a sort into non-increasing score order (embedded with a total
mergesort over the reflexive closure `b.Score ≤ a.Score`; `sort.Slice`
is unstable, so order within equal scores is unspecified on both
sides). -/
def sortCoins (coins : List CoinData) : List CoinData :=
  coins.mergeSort fun a b => decide (b.Score ≤ a.Score)

/-- `ScreenerUsecase.process` steps 5–6: sort the computed list, then
publish it with one `SaveCoins` call. -/
def publishSnapshot (computed : List CoinData) (r : InMemoryScreenerRepository) :
    InMemoryScreenerRepository :=
  SaveCoins r (sortCoins computed)

/-- C8: the snapshot passed to `SaveCoins` (hence every `GetCoins`
result) is sorted non-increasing by score, and `SaveCoins` replaces the
whole previous list — the stored result is its argument, whatever was
stored before. -/
theorem c8_snapshot_sorted_replaced (computed : List CoinData)
    (r : InMemoryScreenerRepository) :
    ((sortCoins computed).Pairwise fun a b => b.Score ≤ a.Score) ∧
    GetCoins (publishSnapshot computed r) = sortCoins computed ∧
    (∀ (r' : InMemoryScreenerRepository) (cs : List CoinData),
      GetCoins (SaveCoins r' cs) = cs) := by
  refine ⟨?_, rfl, fun r' cs => rfl⟩
  have h := @List.sorted_mergeSort CoinData
    (fun a b => decide (b.Score ≤ a.Score))
    (fun a b c hab hbc => by
      simp only [decide_eq_true_eq] at *
      exact le_trans hbc hab)
    (fun a b => by
      rcases le_total a.Score b.Score with h | h
      · simp [h]
      · simp [h])
    computed
  refine h.imp ?_
  intro a b hab
  simpa using hab

/-! ## The indicator library (`internal/infrastructure/indicators`)

Result slices are built positionally in Go (zeros stay where the loop
never writes); here they are built as `replicate`-prefixes followed by a
`scanl` of the smoothing recurrence, which writes the same values at the
same indices. -/

/-- Successive close-to-close changes `closes[i] - closes[i-1]`. -/
def deltas (closes : List ℚ) : List ℚ :=
  (closes.zip (closes.drop 1)).map fun p => p.2 - p.1

/-- The per-change gains of `CalculateRSI` (`change > 0 ? change : 0`). -/
def gainsOf (closes : List ℚ) : List ℚ :=
  (deltas closes).map fun d => if 0 < d then d else 0

/-- The per-change losses of `CalculateRSI` (`change > 0 ? 0 : -change`). -/
def lossesOf (closes : List ℚ) : List ℚ :=
  (deltas closes).map fun d => if 0 < d then 0 else -d

/-- One RSI point from the current average gain and loss: 100 when the
average loss is 0, else `100 - 100/(1 + RS)`. -/
def rsiOf (avgGain avgLoss : ℚ) : ℚ :=
  if avgLoss = 0 then 100 else 100 - 100 / (1 + avgGain / avgLoss)

/-- One Wilder smoothing step on the (avg gain, avg loss) pair:
`avg = (avg·(period-1) + current) / period`. -/
def wilderStep (period : ℕ) (avg : ℚ × ℚ) (gl : ℚ × ℚ) : ℚ × ℚ :=
  ((avg.1 * ((period : ℚ) - 1) + gl.1) / period,
   (avg.2 * ((period : ℚ) - 1) + gl.2) / period)

/-- `indicators.CalculateRSI`: zeros below the `period+1` warm-up; the
first point at index `period` from the plain average of the first
`period` gains/losses, Wilder smoothing afterwards.  (The Go source's
inner `len(gains) < period` check is subsumed by the warm-up check.) -/
def CalculateRSI (closes : List ℚ) (period : ℕ) : List ℚ :=
  if closes.length < period + 1 then List.replicate closes.length 0
  else
    let gains := gainsOf closes
    let losses := lossesOf closes
    let avg0 : ℚ × ℚ := ((gains.take period).sum / period, (losses.take period).sum / period)
    List.replicate period 0 ++
      (List.scanl (wilderStep period) avg0
        ((gains.drop period).zip (losses.drop period))).map fun a => rsiOf a.1 a.2

/-- `indicators.CalculateEMA`: zeros below the `period` warm-up; a
simple average seeds index `period-1`, then exponential smoothing with
`k = 2/(period+1)`. -/
def CalculateEMA (data : List ℚ) (period : ℕ) : List ℚ :=
  if data.length < period then List.replicate data.length 0
  else
    let k : ℚ := 2 / ((period : ℚ) + 1)
    let seed := (data.take period).sum / period
    List.replicate (period - 1) 0 ++
      List.scanl (fun prev x => x * k + prev * (1 - k)) seed (data.drop period)

/-- The true-range series of `CalculateATR`: `high-low` for the first
candle, `max(high-low, |high-prevClose|, |low-prevClose|)` afterwards. -/
def trueRanges (highs lows closes : List ℚ) : List ℚ :=
  match highs, lows with
  | h0 :: _, l0 :: _ =>
    (h0 - l0) ::
      (closes.zip ((highs.drop 1).zip (lows.drop 1))).map fun x =>
        max (x.2.1 - x.2.2) (max |x.2.1 - x.1| |x.2.2 - x.1|)
  | _, _ => []

/-- `indicators.CalculateATR`: zeros below the `period+1` warm-up; a
simple average of the first `period` true ranges seeds index `period-1`,
then Wilder smoothing. -/
def CalculateATR (highs lows closes : List ℚ) (period : ℕ) : List ℚ :=
  if closes.length < period + 1 then List.replicate closes.length 0
  else
    let trs := trueRanges highs lows closes
    let seed := (trs.take period).sum / period
    List.replicate (period - 1) 0 ++
      List.scanl (fun prev tr => (prev * ((period : ℚ) - 1) + tr) / period) seed
        (trs.drop period)

/-- `indicators.BollingerBands`. -/
structure BollingerBands where
  Upper : List ℝ
  Middle : List ℝ
  Lower : List ℝ

/-- The rolling window `closes[i-period+1 .. i]` summed in the Go loop
`for j := 0; j < period; j++ { sum += closes[i-j] }`. -/
def bbWindow (closes : List ℚ) (period i : ℕ) : List ℚ :=
  (closes.drop (i + 1 - period)).take period

/-- The rolling simple moving average of `CalculateBollingerBands`. -/
def smaWindow (closes : List ℚ) (period i : ℕ) : ℚ :=
  (bbWindow closes period i).sum / period

/-- The rolling population variance `sumSqDiff / period`. -/
def varWindow (closes : List ℚ) (period i : ℕ) : ℚ :=
  ((bbWindow closes period i).map fun x => (x - smaWindow closes period i) ^ 2).sum / period

/-- The rolling population standard deviation (`math.Sqrt`, embedded as
`Real.sqrt`; 0 when `period ≤ 1`, as in the Go guard). -/
noncomputable def stdWindow (closes : List ℚ) (period i : ℕ) : ℝ :=
  if 1 < period then Real.sqrt (varWindow closes period i) else 0

/-- `indicators.CalculateBollingerBands`: all-zero bands below the
`period` warm-up; from index `period-1` on, `middle = MA`,
`upper/lower = MA ± multiplier·stdDev`. -/
noncomputable def CalculateBollingerBands (closes : List ℚ) (period : ℕ) (multiplier : ℚ) :
    BollingerBands :=
  if closes.length < period then
    { Upper := List.replicate closes.length 0
      Middle := List.replicate closes.length 0
      Lower := List.replicate closes.length 0 }
  else
    { Upper := (List.range closes.length).map fun i =>
        if period ≤ i + 1 then
          ((smaWindow closes period i : ℚ) : ℝ) + (multiplier : ℝ) * stdWindow closes period i
        else 0
      Middle := (List.range closes.length).map fun i =>
        if period ≤ i + 1 then ((smaWindow closes period i : ℚ) : ℝ) else 0
      Lower := (List.range closes.length).map fun i =>
        if period ≤ i + 1 then
          ((smaWindow closes period i : ℚ) : ℝ) - (multiplier : ℝ) * stdWindow closes period i
        else 0 }

/-! ## Warm-up and boundary facts about the indicators (claim C9) -/

theorem deltas_length (closes : List ℚ) : (deltas closes).length = closes.length - 1 := by
  simp [deltas]

theorem gainsOf_length (closes : List ℚ) : (gainsOf closes).length = closes.length - 1 := by
  simp [gainsOf, deltas_length]

theorem lossesOf_length (closes : List ℚ) : (lossesOf closes).length = closes.length - 1 := by
  simp [lossesOf, deltas_length]

theorem trueRanges_length (highs lows closes : List ℚ)
    (hh : highs.length = closes.length) (hl : lows.length = closes.length)
    (hpos : 0 < closes.length) :
    (trueRanges highs lows closes).length = closes.length := by
  cases highs with
  | nil => simp at hh; omega
  | cons h0 hrest =>
    cases lows with
    | nil => simp at hl; omega
    | cons l0 lrest =>
      simp only [trueRanges, List.length_cons, List.length_map, List.length_zip,
        List.length_drop] at *
      omega

theorem CalculateEMA_short (period : ℕ) (data : List ℚ) (h : data.length < period) :
    CalculateEMA data period = List.replicate data.length 0 := by
  unfold CalculateEMA
  rw [if_pos h]

theorem CalculateRSI_short (period : ℕ) (closes : List ℚ) (h : closes.length < period + 1) :
    CalculateRSI closes period = List.replicate closes.length 0 := by
  unfold CalculateRSI
  rw [if_pos h]

theorem CalculateATR_short (period : ℕ) (highs lows closes : List ℚ)
    (h : closes.length < period + 1) :
    CalculateATR highs lows closes period = List.replicate closes.length 0 := by
  unfold CalculateATR
  rw [if_pos h]

theorem CalculateBollingerBands_short (period : ℕ) (closes : List ℚ) (m : ℚ)
    (h : closes.length < period) :
    CalculateBollingerBands closes period m =
      { Upper := List.replicate closes.length 0
        Middle := List.replicate closes.length 0
        Lower := List.replicate closes.length 0 } := by
  unfold CalculateBollingerBands
  rw [if_pos h]

theorem CalculateEMA_min (period : ℕ) (data : List ℚ) (h : data.length = period) :
    (CalculateEMA data period).getLast? = some (data.sum / period) := by
  unfold CalculateEMA
  rw [if_neg (by omega)]
  have hd : data.drop period = [] := by rw [← h]; exact List.drop_length _
  have ht : data.take period = data := by rw [← h]; exact List.take_length _
  dsimp only
  rw [hd, ht, List.scanl_nil, List.getLast?_concat]

theorem CalculateRSI_min (period : ℕ) (closes : List ℚ) (h : closes.length = period + 1) :
    (CalculateRSI closes period).getLast? =
      some (rsiOf ((gainsOf closes).sum / period) ((lossesOf closes).sum / period)) := by
  unfold CalculateRSI
  rw [if_neg (by omega)]
  have hg : (gainsOf closes).length = period := by rw [gainsOf_length, h]; omega
  have hgd : (gainsOf closes).drop period = [] := List.drop_eq_nil_of_le (by omega)
  have hgt : (gainsOf closes).take period = gainsOf closes := List.take_of_length_le (by omega)
  have hlt : (lossesOf closes).take period = lossesOf closes := by
    refine List.take_of_length_le ?_
    rw [lossesOf_length, h]
    omega
  dsimp only
  rw [hgd, hgt, hlt, List.zip_nil_left, List.scanl_nil, List.map_cons, List.map_nil,
    List.getLast?_concat]

theorem CalculateATR_min (period : ℕ) (highs lows closes : List ℚ)
    (hh : highs.length = closes.length) (hl : lows.length = closes.length)
    (h : closes.length = period + 1) :
    (CalculateATR highs lows closes period).getLast? =
      some (((((trueRanges highs lows closes).take period).sum / period) * ((period : ℚ) - 1)
        + (trueRanges highs lows closes).getD period 0) / period) := by
  unfold CalculateATR
  rw [if_neg (by omega)]
  have htrl : (trueRanges highs lows closes).length = period + 1 := by
    rw [trueRanges_length highs lows closes hh hl (by omega), h]
  have hlt : period < (trueRanges highs lows closes).length := by omega
  have hdrop : (trueRanges highs lows closes).drop period =
      [(trueRanges highs lows closes).getD period 0] := by
    rw [List.drop_eq_getElem_cons hlt, List.drop_eq_nil_of_le (by omega),
      List.getD_eq_getElem _ 0 hlt]
  dsimp only
  rw [hdrop, List.scanl_cons, List.scanl_nil, List.getLast?_append, List.getLast?_append]
  simp

theorem CalculateBollingerBands_min (period : ℕ) (hp : 0 < period) (closes : List ℚ) (m : ℚ)
    (h : closes.length = period) :
    (CalculateBollingerBands closes period m).Middle.getLast? =
      some ((closes.sum / period : ℚ) : ℝ) ∧
    (CalculateBollingerBands closes period m).Upper.getLast? =
      some (((closes.sum / period : ℚ) : ℝ) + (m : ℝ) * stdWindow closes period (period - 1)) ∧
    (CalculateBollingerBands closes period m).Lower.getLast? =
      some (((closes.sum / period : ℚ) : ℝ) - (m : ℝ) * stdWindow closes period (period - 1)) := by
  obtain ⟨k, rfl⟩ : ∃ k, period = k + 1 := ⟨period - 1, by omega⟩
  have hwin : bbWindow closes (k + 1) k = closes := by
    unfold bbWindow
    rw [show k + 1 - (k + 1) = 0 from by omega, List.drop_zero,
      List.take_of_length_le (by omega)]
  have hsma : smaWindow closes (k + 1) k = closes.sum / ((k : ℚ) + 1) := by
    unfold smaWindow
    rw [hwin]
    push_cast
    ring
  unfold CalculateBollingerBands
  rw [if_neg (by omega)]
  dsimp only
  rw [h, List.range_succ, List.map_append, List.map_append, List.map_append]
  refine ⟨?_, ?_, ?_⟩ <;>
    · rw [List.getLast?_append]
      simp [hsma]

/-! ## Claim C9: warm-up sentinels and boundary values -/

/-- C9: every series strictly shorter than its warm-up (`period` samples
for `CalculateEMA` and `CalculateBollingerBands`, `period+1` for
`CalculateRSI` and `CalculateATR`) yields the all-zero result of the
input's length (the embedding is total, so no panic, and exact rational
arithmetic admits no NaN); a series of exactly the minimum length yields
a defined, formula-determined final value: the seed average for EMA, the
first Wilder RSI point for RSI, the smoothed first average for ATR, and
`MA` / `MA ± multiplier·σ` for the Bollinger bands. -/
theorem c9_indicator_warmup (period : ℕ) (hp : 0 < period) :
    (∀ data : List ℚ, data.length < period →
      CalculateEMA data period = List.replicate data.length 0) ∧
    (∀ closes : List ℚ, closes.length < period + 1 →
      CalculateRSI closes period = List.replicate closes.length 0) ∧
    (∀ highs lows closes : List ℚ, closes.length < period + 1 →
      CalculateATR highs lows closes period = List.replicate closes.length 0) ∧
    (∀ (closes : List ℚ) (m : ℚ), closes.length < period →
      CalculateBollingerBands closes period m =
        { Upper := List.replicate closes.length 0
          Middle := List.replicate closes.length 0
          Lower := List.replicate closes.length 0 }) ∧
    (∀ data : List ℚ, data.length = period →
      (CalculateEMA data period).getLast? = some (data.sum / period)) ∧
    (∀ closes : List ℚ, closes.length = period + 1 →
      (CalculateRSI closes period).getLast? =
        some (rsiOf ((gainsOf closes).sum / period) ((lossesOf closes).sum / period))) ∧
    (∀ highs lows closes : List ℚ,
      highs.length = closes.length → lows.length = closes.length →
      closes.length = period + 1 →
      (CalculateATR highs lows closes period).getLast? =
        some (((((trueRanges highs lows closes).take period).sum / period) * ((period : ℚ) - 1)
          + (trueRanges highs lows closes).getD period 0) / period)) ∧
    (∀ (closes : List ℚ) (m : ℚ), closes.length = period →
      (CalculateBollingerBands closes period m).Middle.getLast? =
        some ((closes.sum / period : ℚ) : ℝ) ∧
      (CalculateBollingerBands closes period m).Upper.getLast? =
        some (((closes.sum / period : ℚ) : ℝ) + (m : ℝ) * stdWindow closes period (period - 1)) ∧
      (CalculateBollingerBands closes period m).Lower.getLast? =
        some (((closes.sum / period : ℚ) : ℝ) - (m : ℝ) * stdWindow closes period (period - 1))) := by
  refine ⟨CalculateEMA_short period, CalculateRSI_short period,
    fun highs lows closes h => CalculateATR_short period highs lows closes h,
    fun closes m h => CalculateBollingerBands_short period closes m h,
    CalculateEMA_min period, CalculateRSI_min period,
    fun highs lows closes hh hl h => CalculateATR_min period highs lows closes hh hl h,
    fun closes m h => CalculateBollingerBands_min period hp closes m h⟩

/-- C9 witness: the eight boundary behaviors exercised at period 14 on
concrete constant series (13, 14 and 15 samples long). -/
theorem c9_indicator_warmup_witness :
    CalculateEMA (List.replicate 13 (1:ℚ)) 14 = List.replicate 13 0 ∧
    CalculateRSI (List.replicate 14 (1:ℚ)) 14 = List.replicate 14 0 ∧
    CalculateATR (List.replicate 14 (1:ℚ)) (List.replicate 14 (1:ℚ))
      (List.replicate 14 (1:ℚ)) 14 = List.replicate 14 0 ∧
    CalculateBollingerBands (List.replicate 13 (1:ℚ)) 14 2 =
      { Upper := List.replicate 13 0
        Middle := List.replicate 13 0
        Lower := List.replicate 13 0 } ∧
    (CalculateEMA (List.replicate 14 (1:ℚ)) 14).getLast? =
      some ((List.replicate 14 (1:ℚ)).sum / ((14:ℕ) : ℚ)) ∧
    (CalculateRSI (List.replicate 15 (1:ℚ)) 14).getLast? =
      some (rsiOf ((gainsOf (List.replicate 15 (1:ℚ))).sum / ((14:ℕ) : ℚ))
        ((lossesOf (List.replicate 15 (1:ℚ))).sum / ((14:ℕ) : ℚ))) ∧
    (CalculateATR (List.replicate 15 (1:ℚ)) (List.replicate 15 (1:ℚ))
        (List.replicate 15 (1:ℚ)) 14).getLast? =
      some (((((trueRanges (List.replicate 15 (1:ℚ)) (List.replicate 15 (1:ℚ))
            (List.replicate 15 (1:ℚ))).take 14).sum / ((14:ℕ) : ℚ)) * (((14:ℕ) : ℚ) - 1)
        + (trueRanges (List.replicate 15 (1:ℚ)) (List.replicate 15 (1:ℚ))
            (List.replicate 15 (1:ℚ))).getD 14 0) / ((14:ℕ) : ℚ)) ∧
    (CalculateBollingerBands (List.replicate 14 (1:ℚ)) 14 2).Middle.getLast? =
      some (((List.replicate 14 (1:ℚ)).sum / ((14:ℕ) : ℚ) : ℚ) : ℝ) := by
  obtain ⟨h1, h2, h3, h4, h5, h6, h7, h8⟩ := c9_indicator_warmup 14 (by decide)
  exact ⟨h1 _ (by simp), h2 _ (by simp), h3 _ _ _ (by simp), h4 _ 2 (by simp),
    h5 _ (by simp), h6 _ (by simp), h7 _ _ _ (by simp) (by simp) (by simp),
    (h8 _ 2 (by simp)).1⟩

end Screener
